import Mathlib

set_option maxRecDepth 8000

/-!
Verification of the `ion` package timestamp layer (timestamp.go) and the Ion
`Type` enumeration (ion.go) of the amzn/ion-go repository.

The Go standard-library `time.Time` is modelled shallowly as the pair of the
instant (nanoseconds since the Unix epoch) and the fixed zone offset of its
location, which is the only `time.Time` state the timestamp layer observes:
`time.Time.Equal` compares instants, `In` replaces the location, and
`Format`/`Parse` are modelled for exactly the layout elements that occur in
`TimestampPrecision.formatString`'s layouts (`2006`, `01`, `02`, `15`, `04`,
`05`, `.999999999`, `Z07:00`, and literal characters).
-/

namespace IonGo

/-- Model of Go `time.Time` restricted to fixed-offset locations: the instant
as nanoseconds since the Unix epoch, plus the zone offset in seconds of the
attached location. -/
structure GoTime where
  unixNanos : Int
  offsetSecs : Int
deriving DecidableEq, Repr

/-- Go `time.Time.Equal`: two times are equal when they represent the same
instant, regardless of location. -/
def GoTime.Equal (t u : GoTime) : Bool :=
  decide (t.unixNanos = u.unixNanos)

/-- Go `time.Time.In(loc)`: same instant, location replaced (modelled by its
fixed offset in seconds). -/
def GoTime.In (t : GoTime) (offsetSecs : Int) : GoTime :=
  { t with offsetSecs := offsetSecs }

/-- Leap-year rule used by Go `time.isLeap`. -/
def isLeap (y : Int) : Bool :=
  y % 4 == 0 && (y % 100 != 0 || y % 400 == 0)

/-- Days in a month, honouring leap years (Go `time.daysIn`). -/
def daysIn (m y : Int) : Int :=
  if m = 2 then (if isLeap y then 29 else 28)
  else if m = 4 ∨ m = 6 ∨ m = 9 ∨ m = 11 then 30
  else 31

/-- Days from the Unix epoch 1970-01-01 to the civil date y-m-d
(proleptic Gregorian, the calendar Go `time.Date` computes with). -/
def daysFromCivil (y m d : Int) : Int :=
  let y1 := y - (if m ≤ 2 then 1 else 0)
  let era := Int.fdiv y1 400
  let yoe := y1 - era * 400
  let mp := Int.fmod (m + 9) 12
  let doy := (153 * mp + 2) / 5 + d - 1
  let doe := yoe * 365 + yoe / 4 - yoe / 100 + doy
  era * 146097 + doe - 719468

/-- Civil date y-m-d of a day count from the Unix epoch (inverse of
`daysFromCivil`). -/
def civilFromDays (z0 : Int) : Int × Int × Int :=
  let z := z0 + 719468
  let era := Int.fdiv z 146097
  let doe := z - era * 146097
  let yoe := (doe - doe / 1460 + doe / 36524 - doe / 146096) / 365
  let y := yoe + era * 400
  let doy := doe - (365 * yoe + yoe / 4 - yoe / 100)
  let mp := (5 * doy + 2) / 153
  let d := doy - (153 * mp + 2) / 5 + 1
  let m := mp + (if mp < 10 then 3 else -9)
  (if m ≤ 2 then y + 1 else y, m, d)

/-- The civil (wall-clock) components of a `GoTime` in its own location, as
Go's `Format` observes them. -/
structure Civil where
  year : Int
  month : Int
  day : Int
  hour : Int
  minute : Int
  second : Int
  nanos : Int
deriving DecidableEq, Repr

/-- Split a `GoTime` into its civil components in its own location. -/
def GoTime.civil (t : GoTime) : Civil :=
  let ln := t.unixNanos + t.offsetSecs * 1000000000
  let ns := Int.fmod ln 1000000000
  let s := Int.fdiv ln 1000000000
  let days := Int.fdiv s 86400
  let sod := Int.fmod s 86400
  let ymd := civilFromDays days
  ⟨ymd.1, ymd.2.1, ymd.2.2, sod / 3600, (sod % 3600) / 60, sod % 60, ns⟩

/-- The zero `time.Time{}`: January 1 of year 1, 00:00:00 UTC. -/
def goTimeZero : GoTime :=
  ⟨daysFromCivil 1 1 1 * 86400 * 1000000000, 0⟩

/-- One layout element of a Go time layout, restricted to the elements that
occur in the layouts produced by `TimestampPrecision.formatString`. -/
inductive Chunk
  | lit (c : Char)
  | year4
  | month2
  | day2
  | hour2
  | minute2
  | second2
  | frac9
  | tzColon
deriving DecidableEq, Repr

/-- Go `time.nextStdChunk` iterated over a layout, restricted to the layout
elements occurring in `formatString`'s layouts (`2006` long year, `01` month,
`02` day, `15` hour, `04` minute, `05` second, `.999999999` elided fraction,
`Z07:00` ISO 8601 colon zone; everything else is a literal). -/
def scanLayout : List Char → List Chunk
  | '2' :: '0' :: '0' :: '6' :: rest => .year4 :: scanLayout rest
  | '0' :: '1' :: rest => .month2 :: scanLayout rest
  | '0' :: '2' :: rest => .day2 :: scanLayout rest
  | '1' :: '5' :: rest => .hour2 :: scanLayout rest
  | '0' :: '4' :: rest => .minute2 :: scanLayout rest
  | '0' :: '5' :: rest => .second2 :: scanLayout rest
  | '.' :: '9' :: '9' :: '9' :: '9' :: '9' :: '9' :: '9' :: '9' :: '9' :: rest =>
      .frac9 :: scanLayout rest
  | 'Z' :: '0' :: '7' :: ':' :: '0' :: '0' :: rest => .tzColon :: scanLayout rest
  | c :: rest => .lit c :: scanLayout rest
  | [] => []

/-- Zero-pad a string on the left to width `w`. -/
def padZeros (w : Nat) (s : String) : String :=
  String.mk (List.replicate (w - s.length) '0') ++ s

/-- Go `appendInt`: decimal rendering zero-padded to width `w`, sign first. -/
def padNum (w : Nat) (n : Int) : String :=
  (if n < 0 then "-" else "") ++ padZeros w (toString n.natAbs)

/-- Drop trailing zero characters. -/
def dropTrailingZeros (s : String) : String :=
  String.mk ((s.data.reverse.dropWhile (fun c => c = '0')).reverse)

/-- Go `formatNano` for the `.999999999` layout element: a 9-digit fraction
with trailing zeros removed; nothing at all (no dot) when the nanosecond
value is zero. -/
def formatFrac9 (ns : Int) : String :=
  if ns == 0 then "" else "." ++ dropTrailingZeros (padZeros 9 (toString ns.natAbs))

/-- Go rendering of the `Z07:00` layout element: `Z` for a zero offset,
otherwise sign, two-digit hours, colon, two-digit minutes. -/
def formatTZColon (off : Int) : String :=
  if off == 0 then "Z"
  else
    let zone := off.natAbs / 60
    (if off < 0 then "-" else "+")
      ++ padNum 2 (zone / 60 : Nat) ++ ":" ++ padNum 2 (zone % 60 : Nat)

/-- Render one layout element from civil components and the zone offset. -/
def renderChunk (cv : Civil) (off : Int) : Chunk → String
  | .lit c => String.singleton c
  | .year4 => padNum 4 cv.year
  | .month2 => padNum 2 cv.month
  | .day2 => padNum 2 cv.day
  | .hour2 => padNum 2 cv.hour
  | .minute2 => padNum 2 cv.minute
  | .second2 => padNum 2 cv.second
  | .frac9 => formatFrac9 cv.nanos
  | .tzColon => formatTZColon off

/-- Go `time.Time.Format`, restricted to the layout elements of
`formatString`'s layouts. -/
def goFormat (t : GoTime) (layout : String) : String :=
  (scanLayout layout.data).foldl
    (fun acc ch => acc ++ renderChunk t.civil t.offsetSecs ch) ""

/-- Numeric value of a decimal digit character (Go `c - '0'`). -/
def digitVal (c : Char) : Int :=
  (c.toNat : Int) - 48

/-- Read exactly `n` decimal digits (Go `getnum` with `fixed = true`,
iterated). -/
def readFixedAux : Nat → Int → List Char → Option (Int × List Char)
  | 0, acc, v => some (acc, v)
  | _ + 1, _, [] => none
  | n + 1, acc, c :: rest =>
      if c.isDigit then readFixedAux n (acc * 10 + digitVal c) rest else none

/-- Read exactly `n` decimal digits. -/
def readFixed (n : Nat) (v : List Char) : Option (Int × List Char) :=
  readFixedAux n 0 v

/-- Go `getnum` with `fixed = false`: one or two decimal digits. -/
def read1or2 : List Char → Option (Int × List Char)
  | [] => none
  | [c] => if c.isDigit then some (digitVal c, []) else none
  | c :: c2 :: rest =>
      if c.isDigit then
        if c2.isDigit then some (digitVal c * 10 + digitVal c2, rest)
        else some (digitVal c, c2 :: rest)
      else none

/-- Go `parseNanoseconds`: the value of the fractional digits scaled to
nanoseconds (at most nine digits are significant). -/
def fracValue (ds : List Char) : Int :=
  let ds9 := ds.take 9
  (ds9.foldl (fun a c => a * 10 + digitVal c) 0) * 10 ^ (9 - ds9.length)

/-- Go parsing of the `.999999999` layout element: an optional dot or comma
followed by one or more digits; all digits are consumed. -/
def readFrac : List Char → Int × List Char
  | c :: c2 :: rest =>
      if (c = '.' ∨ c = ',') ∧ c2.isDigit then
        (fracValue ((c2 :: rest).takeWhile Char.isDigit),
         (c2 :: rest).dropWhile Char.isDigit)
      else (0, c :: c2 :: rest)
  | v => (0, v)

/-- Go parsing of the `Z07:00` layout element: `Z` meaning UTC, or a signed
`hh:mm` offset; the result is the offset in seconds. -/
def readTZColon : List Char → Option (Int × List Char)
  | 'Z' :: rest => some (0, rest)
  | s :: h1 :: h2 :: ':' :: m1 :: m2 :: rest =>
      if (s = '+' ∨ s = '-') ∧ h1.isDigit ∧ h2.isDigit ∧ m1.isDigit ∧ m2.isDigit then
        let off := (digitVal h1 * 10 + digitVal h2) * 3600
                 + (digitVal m1 * 10 + digitVal m2) * 60
        some (if s = '-' then -off else off, rest)
      else none
  | _ => none

/-- The components accumulated by Go `time.parse`, with Go's defaults
(month and day default to 1, everything else to 0). -/
structure ParseState where
  year : Int
  month : Int
  day : Int
  hour : Int
  minute : Int
  second : Int
  nanos : Int
  zoneOffset : Int
deriving DecidableEq, Repr

/-- The initial parse state: Go's component defaults. -/
def initParseState : ParseState :=
  ⟨0, 1, 1, 0, 0, 0, 0, 0⟩

/-- The main loop of Go `time.parse`: consume the input against the layout
elements, recording components; fails when the input does not match. -/
def parseChunks : List Chunk → List Char → ParseState → Option (ParseState × List Char)
  | [], v, st => some (st, v)
  | .lit c :: chs, v, st =>
      match v with
      | c2 :: rest => if c2 = c then parseChunks chs rest st else none
      | [] => none
  | .year4 :: chs, v, st =>
      match readFixed 4 v with
      | some (n, rest) => parseChunks chs rest { st with year := n }
      | none => none
  | .month2 :: chs, v, st =>
      match readFixed 2 v with
      | some (n, rest) => parseChunks chs rest { st with month := n }
      | none => none
  | .day2 :: chs, v, st =>
      match readFixed 2 v with
      | some (n, rest) => parseChunks chs rest { st with day := n }
      | none => none
  | .hour2 :: chs, v, st =>
      match read1or2 v with
      | some (n, rest) => parseChunks chs rest { st with hour := n }
      | none => none
  | .minute2 :: chs, v, st =>
      match readFixed 2 v with
      | some (n, rest) => parseChunks chs rest { st with minute := n }
      | none => none
  | .second2 :: chs, v, st =>
      match readFixed 2 v with
      | some (n, rest) => parseChunks chs rest { st with second := n }
      | none => none
  | .frac9 :: chs, v, st =>
      match readFrac v with
      | (n, rest) => parseChunks chs rest { st with nanos := n }
  | .tzColon :: chs, v, st =>
      match readTZColon v with
      | some (off, rest) => parseChunks chs rest { st with zoneOffset := off }
      | none => none

/-- Go `time.parse`'s range validation: month 1..12, day 1..days-in-month
honouring leap years, hour 0..23, minute and second 0..59. -/
def validState (st : ParseState) : Bool :=
  decide (1 ≤ st.month) && decide (st.month ≤ 12) &&
  decide (1 ≤ st.day) && decide (st.day ≤ daysIn st.month st.year) &&
  decide (st.hour < 24) && decide (st.minute < 60) && decide (st.second < 60)

/-- Assemble the parsed components into a `GoTime` (Go `time.Date` at UTC
followed by subtracting the parsed zone offset, location set to the parsed
fixed offset). -/
def buildGoTime (st : ParseState) : GoTime :=
  let secs := daysFromCivil st.year st.month st.day * 86400
            + st.hour * 3600 + st.minute * 60 + st.second - st.zoneOffset
  ⟨secs * 1000000000 + st.nanos, st.zoneOffset⟩

/-- Go `time.Parse` restricted to the layouts of `formatString`: `none` models
a non-nil error (bad syntax, leftover input, or out-of-range component). -/
def goParse (layout value : String) : Option GoTime :=
  match parseChunks (scanLayout layout.data) value.data initParseState with
  | some (st, []) => if validState st then some (buildGoTime st) else none
  | _ => none

/-- `TimestampPrecision` is for tracking the precision of a timestamp
(timestamp.go; a `uint8` enumeration, `iota` values 0..6). -/
inductive TimestampPrecision
  | NoPrecision
  | Year
  | Month
  | Day
  | Minute
  | Second
  | Nanosecond
deriving DecidableEq, Repr

/-- The `uint8` value of a `TimestampPrecision` constant (`iota`). -/
def TimestampPrecision.val : TimestampPrecision → Nat
  | .NoPrecision => 0
  | .Year => 1
  | .Month => 2
  | .Day => 3
  | .Minute => 4
  | .Second => 5
  | .Nanosecond => 6

/-- `TimestampPrecision.formatString` from timestamp.go: the Go layout used
for this precision, with or without a numeric zone offset. (The `switch` is
exhaustive over the declared constants, so the trailing `time.RFC3339Nano`
return is unreachable here.) -/
def TimestampPrecision.formatString (tp : TimestampPrecision) (hasOffset : Bool) : String :=
  match tp with
  | .NoPrecision => ""
  | .Year => "2006T"
  | .Month => "2006-01T"
  | .Day => "2006-01-02T"
  | .Minute =>
      if hasOffset then "2006-01-02T15:04Z07:00" else "2006-01-02T15:04Z"
  | .Second =>
      if hasOffset then "2006-01-02T15:04:05Z07:00" else "2006-01-02T15:04:05Z"
  | .Nanosecond =>
      if hasOffset then "2006-01-02T15:04:05.999999999Z07:00"
      else "2006-01-02T15:04:05.999999999Z"

/-- `TimestampKind` is for tracking the kind of timestamp (timestamp.go;
a `uint8` enumeration: `Unspecified`, `UTC`, `Local`). -/
inductive TimestampKind
  | Unspecified
  | UTC
  | Local
deriving DecidableEq, Repr

/-- The `Timestamp` struct from timestamp.go. -/
structure Timestamp where
  DateTime : GoTime
  precision : TimestampPrecision
  hasOffset : Bool
  kind : TimestampKind
deriving DecidableEq, Repr

/-- `NewSimpleTimestamp` constructor from timestamp.go. -/
def NewSimpleTimestamp (dateTime : GoTime) (precision : TimestampPrecision) : Timestamp :=
  ⟨dateTime, precision, false, .Unspecified⟩

/-- `NewTimestamp` constructor from timestamp.go: for precision up to `Day`
the offset does not apply, so `hasOffset` is stored as `false`. -/
def NewTimestamp (dateTime : GoTime) (precision : TimestampPrecision)
    (hasOffset : Bool) (kind : TimestampKind) : Timestamp :=
  if precision.val ≤ TimestampPrecision.Day.val then
    ⟨dateTime, precision, false, kind⟩
  else
    ⟨dateTime, precision, hasOffset, kind⟩

/-- `NewTimestampFromStr` constructor from timestamp.go: `time.Parse` against
the layout for (precision, hasOffset); on parse error it returns the empty
`Timestamp{time.Time{}, NoPrecision, false, Unspecified}` together with the
error (the `Bool` component models `err ≠ nil`). -/
def NewTimestampFromStr (dateStr : String) (precision : TimestampPrecision)
    (hasOffset : Bool) (kind : TimestampKind) : Timestamp × Bool :=
  match goParse (precision.formatString hasOffset) dateStr with
  | none => (⟨goTimeZero, .NoPrecision, false, .Unspecified⟩, true)
  | some dateTime => (NewTimestamp dateTime precision hasOffset kind, false)

/-- `emptyTimestamp` from timestamp.go. -/
def emptyTimestamp : Timestamp :=
  ⟨goTimeZero, .NoPrecision, false, .Unspecified⟩

/-- `Timestamp.Format` from timestamp.go: format the internal `time.Time`
with the layout for the timestamp's precision and offset flag. -/
def Timestamp.Format (ts : Timestamp) : String :=
  goFormat ts.DateTime (ts.precision.formatString ts.hasOffset)

/-- `Timestamp.Equal` from timestamp.go: `DateTime.Equal` (same instant) and
equal `precision`, `hasOffset`, and `kind`. -/
def Timestamp.Equal (ts ts1 : Timestamp) : Bool :=
  ts.DateTime.Equal ts1.DateTime &&
  decide (ts.precision = ts1.precision) &&
  decide (ts.hasOffset = ts1.hasOffset) &&
  decide (ts.kind = ts1.kind)

/-- `Timestamp.Equivalent` from timestamp.go: equal `DateTime` instant,
`precision`, and `kind` (the `hasOffset` flag is not compared). -/
def Timestamp.Equivalent (ts ts1 : Timestamp) : Bool :=
  ts.DateTime.Equal ts1.DateTime &&
  decide (ts.precision = ts1.precision) &&
  decide (ts.kind = ts1.kind)

/-- `Timestamp.SetLocation` from timestamp.go: `ts.DateTime = ts.DateTime.In(loc)`
(the Go method mutates through a pointer receiver; the model returns the
updated timestamp). -/
def Timestamp.SetLocation (ts : Timestamp) (loc : Int) : Timestamp :=
  { ts with DateTime := ts.DateTime.In loc }

/-- The Ion `Type` enumeration from ion.go (`Type uint8`, `iota` values;
named `IonType` here because `Type` is reserved in Lean). `NoType` is
documented as the value returned by a `Reader` not currently pointing at a
value. -/
inductive IonType
  | NoType
  | NullType
  | BoolType
  | IntType
  | FloatType
  | DecimalType
  | TimestampType
  | StringType
  | SymbolType
  | BlobType
  | ClobType
  | StructType
  | ListType
  | SexpType
deriving DecidableEq, Repr, Fintype

/-- The `uint8` value of each Ion `Type` constant (`iota`). -/
def IonType.val : IonType → Nat
  | .NoType => 0
  | .NullType => 1
  | .BoolType => 2
  | .IntType => 3
  | .FloatType => 4
  | .DecimalType => 5
  | .TimestampType => 6
  | .StringType => 7
  | .SymbolType => 8
  | .BlobType => 9
  | .ClobType => 10
  | .StructType => 11
  | .ListType => 12
  | .SexpType => 13

/-- The Ion `Type` constants in their declaration order in ion.go. -/
def ionTypeOrder : List IonType :=
  [.NoType, .NullType, .BoolType, .IntType, .FloatType, .DecimalType,
   .TimestampType, .StringType, .SymbolType, .BlobType, .ClobType,
   .StructType, .ListType, .SexpType]

/-! Helper lemmas shared by the claim theorems. -/

theorem str_append_empty (s : String) : s ++ "" = s := by
  obtain ⟨d⟩ := s
  show String.mk (d ++ []) = String.mk d
  rw [List.append_nil]

theorem formatTZColon_zero : formatTZColon 0 = "Z" := by decide

theorem formatFrac9_zero : formatFrac9 0 = "" := by decide

theorem scanLayout_minOff :
    scanLayout ("2006-01-02T15:04Z07:00").data =
      [.year4, .lit '-', .month2, .lit '-', .day2, .lit 'T', .hour2, .lit ':',
       .minute2, .tzColon] := by decide

theorem scanLayout_secOff :
    scanLayout ("2006-01-02T15:04:05Z07:00").data =
      [.year4, .lit '-', .month2, .lit '-', .day2, .lit 'T', .hour2, .lit ':',
       .minute2, .lit ':', .second2, .tzColon] := by decide

theorem scanLayout_nanoOff :
    scanLayout ("2006-01-02T15:04:05.999999999Z07:00").data =
      [.year4, .lit '-', .month2, .lit '-', .day2, .lit 'T', .hour2, .lit ':',
       .minute2, .lit ':', .second2, .frac9, .tzColon] := by decide

theorem scanLayout_secPlain :
    scanLayout ("2006-01-02T15:04:05Z").data =
      [.year4, .lit '-', .month2, .lit '-', .day2, .lit 'T', .hour2, .lit ':',
       .minute2, .lit ':', .second2, .lit 'Z'] := by decide

theorem scanLayout_nanoPlain :
    scanLayout ("2006-01-02T15:04:05.999999999Z").data =
      [.year4, .lit '-', .month2, .lit '-', .day2, .lit 'T', .hour2, .lit ':',
       .minute2, .lit ':', .second2, .frac9, .lit 'Z'] := by decide

/-! Claim theorems. -/

/-- C1 (counterexample): two timestamps whose `DateTime`s carry different
zone offsets but denote the same instant, with equal precision, offset flag,
and kind, compare `Equal` — so `Equal` does not compare the zone offset in
seconds, contradicting the claim. -/
theorem C1_counterexample :
    Timestamp.Equal ⟨⟨0, 0⟩, .Second, true, .Local⟩ ⟨⟨0, 3600⟩, .Second, true, .Local⟩
      = true ∧
    (⟨0, 0⟩ : GoTime).offsetSecs ≠ (⟨0, 3600⟩ : GoTime).offsetSecs := by
  decide

/-- C1 (amended): `Equal` compares exactly the instant, the precision, the
`hasOffset` flag, and the timezone-kind; the zone offset itself is not
compared and no fractional-unit count exists in the struct. In particular
timestamps with different precision or different kind are never `Equal`. -/
theorem C1_equal_components (ts1 ts2 : Timestamp) :
    ts1.Equal ts2 = true ↔
      (ts1.DateTime.unixNanos = ts2.DateTime.unixNanos ∧
       ts1.precision = ts2.precision ∧
       ts1.hasOffset = ts2.hasOffset ∧
       ts1.kind = ts2.kind) := by
  simp [Timestamp.Equal, GoTime.Equal, and_assoc]

/-- C2 (counterexample): `NewTimestamp` at `Day` precision passes the kind
argument through unchanged, so the result's kind is `UTC`, not `Unspecified`
as the claim states. -/
theorem C2_counterexample :
    (NewTimestamp goTimeZero .Day true .UTC).kind = .UTC ∧
    TimestampKind.UTC ≠ TimestampKind.Unspecified := by
  decide

/-- C2 (amended): for precision at most `Day`, `NewTimestamp` coerces the
`hasOffset` argument to `false`; the kind argument is stored unchanged. -/
theorem C2_lowPrecision_coerces_offset (dt : GoTime) (prec : TimestampPrecision)
    (hasOff : Bool) (kind : TimestampKind)
    (h : prec.val ≤ TimestampPrecision.Day.val) :
    NewTimestamp dt prec hasOff kind = ⟨dt, prec, false, kind⟩ := by
  simp [NewTimestamp, h]

/-- C2 witness: the amended statement at `Day` precision with `hasOffset` and
kind `UTC`. -/
theorem C2_witness :
    NewTimestamp goTimeZero .Day true .UTC = ⟨goTimeZero, .Day, false, .UTC⟩ :=
  C2_lowPrecision_coerces_offset goTimeZero .Day true .UTC (by decide)

/-- C6: `Equal` is reflexive, symmetric, and transitive, and two timestamps
with distinct precisions never compare `Equal`. -/
theorem C6_equal_equivalence :
    (∀ ts : Timestamp, ts.Equal ts = true) ∧
    (∀ ts1 ts2 : Timestamp, ts1.Equal ts2 = true → ts2.Equal ts1 = true) ∧
    (∀ ts1 ts2 ts3 : Timestamp,
        ts1.Equal ts2 = true → ts2.Equal ts3 = true → ts1.Equal ts3 = true) ∧
    (∀ ts1 ts2 : Timestamp, ts1.precision ≠ ts2.precision → ts1.Equal ts2 = false) := by
  refine ⟨?_, ?_, ?_, ?_⟩
  · intro ts
    simp [Timestamp.Equal, GoTime.Equal]
  · intro ts1 ts2 h
    simp only [Timestamp.Equal, GoTime.Equal, Bool.and_eq_true, decide_eq_true_eq] at h ⊢
    exact ⟨⟨⟨h.1.1.1.symm, h.1.1.2.symm⟩, h.1.2.symm⟩, h.2.symm⟩
  · intro ts1 ts2 ts3 h1 h2
    simp only [Timestamp.Equal, GoTime.Equal, Bool.and_eq_true, decide_eq_true_eq] at h1 h2 ⊢
    exact ⟨⟨⟨h1.1.1.1.trans h2.1.1.1, h1.1.1.2.trans h2.1.1.2⟩,
           h1.1.2.trans h2.1.2⟩, h1.2.trans h2.2⟩
  · intro ts1 ts2 h
    simp [Timestamp.Equal, h]

/-- C6 witness: the four conjuncts applied at concrete timestamps. -/
theorem C6_witness :
    emptyTimestamp.Equal emptyTimestamp = true ∧
    Timestamp.Equal ⟨⟨7, 0⟩, .Second, true, .UTC⟩ ⟨⟨7, 0⟩, .Second, true, .UTC⟩ = true ∧
    Timestamp.Equal ⟨⟨7, 0⟩, .Second, true, .UTC⟩ ⟨⟨7, 0⟩, .Second, true, .UTC⟩ = true ∧
    Timestamp.Equal ⟨goTimeZero, .Year, false, .Unspecified⟩ emptyTimestamp = false :=
  ⟨C6_equal_equivalence.1 emptyTimestamp,
   C6_equal_equivalence.2.1 ⟨⟨7, 0⟩, .Second, true, .UTC⟩ ⟨⟨7, 0⟩, .Second, true, .UTC⟩
     (by decide),
   C6_equal_equivalence.2.2.1 ⟨⟨7, 0⟩, .Second, true, .UTC⟩ ⟨⟨7, 0⟩, .Second, true, .UTC⟩
     ⟨⟨7, 0⟩, .Second, true, .UTC⟩ (by decide) (by decide),
   C6_equal_equivalence.2.2.2 ⟨goTimeZero, .Year, false, .Unspecified⟩ emptyTimestamp
     (by decide)⟩

/-- C8: the Ion `Type` enumeration is closed with exactly fourteen tags in
declaration order `NoType, NullType, …, SexpType`, whose `iota` values are
the consecutive integers 0 through 13. -/
theorem C8_type_enumeration :
    ionTypeOrder =
      [IonType.NoType, .NullType, .BoolType, .IntType, .FloatType, .DecimalType,
       .TimestampType, .StringType, .SymbolType, .BlobType, .ClobType,
       .StructType, .ListType, .SexpType] ∧
    ionTypeOrder.length = 14 ∧
    ionTypeOrder.Nodup ∧
    (∀ t : IonType, t ∈ ionTypeOrder) ∧
    ionTypeOrder.map IonType.val = List.range 14 := by
  decide

/-- C9: `SetLocation` changes only the location of the internal `DateTime`:
the instant, precision, `hasOffset` flag, and kind are unchanged, so the
result is `Equal` to the original. -/
theorem C9_setLocation_frame (ts : Timestamp) (loc : Int) :
    (ts.SetLocation loc).DateTime.unixNanos = ts.DateTime.unixNanos ∧
    (ts.SetLocation loc).DateTime.offsetSecs = loc ∧
    (ts.SetLocation loc).precision = ts.precision ∧
    (ts.SetLocation loc).hasOffset = ts.hasOffset ∧
    (ts.SetLocation loc).kind = ts.kind ∧
    (ts.SetLocation loc).Equal ts = true := by
  simp [Timestamp.SetLocation, GoTime.In, Timestamp.Equal, GoTime.Equal]

/-- C10: `Equivalent` compares instant, precision, and kind only, ignoring
the `hasOffset` flag; `Equal` implies `Equivalent`, and a concrete pair
differing only in `hasOffset` is `Equivalent` but not `Equal`. -/
theorem C10_equivalent_ignores_offset_flag :
    (∀ ts1 ts2 : Timestamp, ts1.Equivalent ts2 = true ↔
        (ts1.DateTime.unixNanos = ts2.DateTime.unixNanos ∧
         ts1.precision = ts2.precision ∧ ts1.kind = ts2.kind)) ∧
    (∀ ts1 ts2 : Timestamp, ts1.Equal ts2 = true → ts1.Equivalent ts2 = true) ∧
    (Timestamp.Equivalent ⟨⟨0, 0⟩, .Minute, true, .Unspecified⟩
        ⟨⟨0, 0⟩, .Minute, false, .Unspecified⟩ = true ∧
     Timestamp.Equal ⟨⟨0, 0⟩, .Minute, true, .Unspecified⟩
        ⟨⟨0, 0⟩, .Minute, false, .Unspecified⟩ = false) := by
  refine ⟨?_, ?_, by decide⟩
  · intro ts1 ts2
    simp [Timestamp.Equivalent, GoTime.Equal, and_assoc]
  · intro ts1 ts2 h
    simp only [Timestamp.Equal, Timestamp.Equivalent, GoTime.Equal, Bool.and_eq_true,
      decide_eq_true_eq] at h ⊢
    exact ⟨⟨h.1.1.1, h.1.1.2⟩, h.2⟩

/-- C10 witness: `Equal → Equivalent` applied at a concrete pair. -/
theorem C10_witness :
    Timestamp.Equivalent ⟨⟨7, 0⟩, .Second, true, .UTC⟩ ⟨⟨7, 0⟩, .Second, true, .UTC⟩
      = true :=
  C10_equivalent_ignores_offset_flag.2.1 ⟨⟨7, 0⟩, .Second, true, .UTC⟩
    ⟨⟨7, 0⟩, .Second, true, .UTC⟩ (by decide)

/-- C5 (counterexample): the inputs `…00.000-00:00` (three declared
fractional digits, all zero) and `…00.0-00:00` (one declared digit) produce
identical results from `NewTimestampFromStr` — no fractional-digit count is
recorded anywhere, so an all-zero fraction does not retain its declared unit
count. -/
theorem C5_counterexample :
    NewTimestampFromStr "2001-01-01T00:00:00.000-00:00" .Nanosecond true .Unspecified =
      NewTimestampFromStr "2001-01-01T00:00:00.0-00:00" .Nanosecond true .Unspecified ∧
    (NewTimestampFromStr "2001-01-01T00:00:00.000-00:00" .Nanosecond true .Unspecified).2
      = false := by
  decide

/-- C5 (amended): `NewTimestampFromStr` performs no scanning or counting of
fractional digits; its result depends only on what `time.Parse` returns for
the layout, so two inputs that parse to the same `time.Time` yield the same
`Timestamp`. -/
theorem C5_result_determined_by_parse (s1 s2 : String) (prec : TimestampPrecision)
    (hasOff : Bool) (kind : TimestampKind)
    (h : goParse (prec.formatString hasOff) s1 = goParse (prec.formatString hasOff) s2) :
    NewTimestampFromStr s1 prec hasOff kind = NewTimestampFromStr s2 prec hasOff kind := by
  unfold NewTimestampFromStr
  rw [h]

/-- C5 witness: the amended statement at the two concrete fraction spellings. -/
theorem C5_witness :
    NewTimestampFromStr "2001-01-01T00:00:00.000-00:00" .Nanosecond true .UTC =
      NewTimestampFromStr "2001-01-01T00:00:00.0-00:00" .Nanosecond true .UTC :=
  C5_result_determined_by_parse "2001-01-01T00:00:00.000-00:00"
    "2001-01-01T00:00:00.0-00:00" .Nanosecond true .UTC (by decide)

/-- C7: when `time.Parse` fails — in particular on calendrically invalid
dates such as Feb 29 of a non-leap year or Apr 31 — `NewTimestampFromStr`
returns the error together with the empty timestamp (`NoPrecision`,
no offset, kind `Unspecified`); whenever an error is reported the returned
timestamp is the empty timestamp, so no valid timestamp arises from invalid
input. -/
theorem C7_invalid_input_rejected :
    (∀ (s : String) (prec : TimestampPrecision) (hasOff : Bool) (kind : TimestampKind),
        goParse (prec.formatString hasOff) s = none →
          NewTimestampFromStr s prec hasOff kind =
            (⟨goTimeZero, .NoPrecision, false, .Unspecified⟩, true)) ∧
    (∀ (s : String) (prec : TimestampPrecision) (hasOff : Bool) (kind : TimestampKind),
        (NewTimestampFromStr s prec hasOff kind).2 = true →
          (NewTimestampFromStr s prec hasOff kind).1 = emptyTimestamp) ∧
    goParse (TimestampPrecision.Day.formatString false) "2001-02-29T" = none ∧
    goParse (TimestampPrecision.Day.formatString false) "2001-04-31T" = none := by
  refine ⟨?_, ?_, by decide, by decide⟩
  · intro s prec hasOff kind h
    unfold NewTimestampFromStr
    rw [h]
  · intro s prec hasOff kind h
    unfold NewTimestampFromStr at h ⊢
    cases hp : goParse (prec.formatString hasOff) s with
    | none => rfl
    | some dateTime => rw [hp] at h; exact absurd h (by simp)

/-- C7 witness: the first two conjuncts applied at the concrete invalid date
`2001-02-29T` (2001 is not a leap year). -/
theorem C7_witness :
    NewTimestampFromStr "2001-02-29T" .Day false .Unspecified =
      (⟨goTimeZero, .NoPrecision, false, .Unspecified⟩, true) ∧
    (NewTimestampFromStr "2001-02-29T" .Day false .Unspecified).1 = emptyTimestamp :=
  ⟨C7_invalid_input_rejected.1 "2001-02-29T" .Day false .Unspecified (by decide),
   C7_invalid_input_rejected.2.1 "2001-02-29T" .Day false .Unspecified (by decide)⟩

/-- C3 (counterexample): the timestamp parsed from
`2001-01-01T00:00:00.000-00:00` formats as `2001-01-01T00:00:00Z` — the zone
suffix is `Z`, not `-00:00`, and the `.000` fraction is gone; `Format`
performs no `+00:00` → `-00:00` rewriting. -/
theorem C3_counterexample :
    (NewTimestampFromStr "2001-01-01T00:00:00.000-00:00" .Nanosecond true .Unspecified).2
      = false ∧
    ((NewTimestampFromStr "2001-01-01T00:00:00.000-00:00" .Nanosecond true .Unspecified).1).Format
      = "2001-01-01T00:00:00Z" ∧
    "2001-01-01T00:00:00Z" ≠ "2001-01-01T00:00:00.000-00:00" := by
  decide

/-- C3 (amended): `Format` applies no zone rewriting at all; for any
timestamp with `hasOffset` set, precision at least `Minute`, and a zero zone
offset on its `DateTime` — which is what parsing a `-00:00` input produces —
the rendered string ends in `Z`, because Go's `Z07:00` layout element renders
a zero offset as `Z`. -/
theorem C3_zero_offset_formats_Z (ts : Timestamp)
    (h1 : ts.hasOffset = true)
    (h2 : ts.precision = .Minute ∨ ts.precision = .Second ∨ ts.precision = .Nanosecond)
    (h3 : ts.DateTime.offsetSecs = 0) :
    ∃ p, ts.Format = p ++ "Z" := by
  obtain ⟨dt, prec, ho, k⟩ := ts
  simp only at h1 h2 h3
  subst h1
  rcases h2 with h | h | h <;> subst h
  · show ∃ p, goFormat dt "2006-01-02T15:04Z07:00" = p ++ "Z"
    unfold goFormat
    rw [scanLayout_minOff]
    simp only [List.foldl, renderChunk, h3, formatTZColon_zero]
    exact ⟨_, rfl⟩
  · show ∃ p, goFormat dt "2006-01-02T15:04:05Z07:00" = p ++ "Z"
    unfold goFormat
    rw [scanLayout_secOff]
    simp only [List.foldl, renderChunk, h3, formatTZColon_zero]
    exact ⟨_, rfl⟩
  · show ∃ p, goFormat dt "2006-01-02T15:04:05.999999999Z07:00" = p ++ "Z"
    unfold goFormat
    rw [scanLayout_nanoOff]
    simp only [List.foldl, renderChunk, h3, formatTZColon_zero]
    exact ⟨_, rfl⟩

/-- C3 witness: the amended statement at a concrete `Minute`-precision
timestamp with zero offset. -/
theorem C3_witness :
    ∃ p, Timestamp.Format ⟨⟨0, 0⟩, .Minute, true, .Unspecified⟩ = p ++ "Z" :=
  C3_zero_offset_formats_Z ⟨⟨0, 0⟩, .Minute, true, .Unspecified⟩ rfl (Or.inl rfl) rfl

/-- C4 (counterexample): a timestamp parsed with a `.000` fraction formats
with no fraction at all — `Format` does not re-insert the elided zeros. -/
theorem C4_counterexample :
    (NewTimestampFromStr "2001-01-01T00:00:00.000Z" .Nanosecond false .Unspecified).2
      = false ∧
    ((NewTimestampFromStr "2001-01-01T00:00:00.000Z" .Nanosecond false .Unspecified).1).Format
      = "2001-01-01T00:00:00Z" ∧
    "2001-01-01T00:00:00Z" ≠ "2001-01-01T00:00:00.000Z" := by
  decide

/-- C4 (amended): `Format` performs no re-insertion of trailing fractional
zeros (the struct records no fractional-unit count): when the timestamp's
nanosecond component is zero, the `.999999999` layout element renders
nothing, so a `Nanosecond`-precision timestamp formats exactly like the same
timestamp at `Second` precision. -/
theorem C4_zero_nanos_drops_fraction (ts : Timestamp)
    (hp : ts.precision = .Nanosecond)
    (hn : ts.DateTime.civil.nanos = 0) :
    ts.Format = Timestamp.Format ⟨ts.DateTime, .Second, ts.hasOffset, ts.kind⟩ := by
  obtain ⟨dt, prec, ho, k⟩ := ts
  simp only at hp hn ⊢
  subst hp
  cases ho
  · show goFormat dt "2006-01-02T15:04:05.999999999Z" = goFormat dt "2006-01-02T15:04:05Z"
    unfold goFormat
    rw [scanLayout_nanoPlain, scanLayout_secPlain]
    simp only [List.foldl, renderChunk, hn, formatFrac9_zero, str_append_empty]
  · show goFormat dt "2006-01-02T15:04:05.999999999Z07:00"
        = goFormat dt "2006-01-02T15:04:05Z07:00"
    unfold goFormat
    rw [scanLayout_nanoOff, scanLayout_secOff]
    simp only [List.foldl, renderChunk, hn, formatFrac9_zero, str_append_empty]

/-- C4 witness: the amended statement at a concrete zero-nanosecond
timestamp. -/
theorem C4_witness :
    Timestamp.Format ⟨⟨0, 0⟩, .Nanosecond, false, .Unspecified⟩ =
      Timestamp.Format ⟨⟨0, 0⟩, .Second, false, .Unspecified⟩ :=
  C4_zero_nanos_drops_fraction ⟨⟨0, 0⟩, .Nanosecond, false, .Unspecified⟩ rfl (by decide)

end IonGo

